import Mathlib

/-!
Verification development for the QSM preprocessing repository's
registration and transform-propagation core
(`exploratory_pipeline/registration/coreg_pipeline.py` and
`exploratory_pipeline/registration/reg_mspace_masks.py`).

The Python code delegates numerical work to SimpleITK.  We shallowly embed
the pipeline: volumes carry a voxel grid (size, spacing, origin, with the
identity direction matrix the repository guarantees by canonical
reorientation), transforms are affine maps over ℚ, and the SimpleITK calls
made by the code (`ResampleImageFilter`, `CenteredTransformInitializer` in
GEOMETRY mode, `ReadImage` with a pixel-type cast, transform read/write) are
modelled by executable Lean functions that follow their documented
semantics at exactly the configuration the code passes.  The iterative
optimizer (`ImageRegistrationMethod.Execute`) is left as an explicit
function parameter, since none of the verified properties depend on the
numerical optimum; what the code does *around* `Execute` — which inputs it
feeds, which settings it fixes, what it persists, prints, and resamples —
is embedded faithfully, including its lack of error checks.

File layout: `os.path.splitext` and the default output paths, the data
model, the resampler, the centred-transform initializer, the store-passing
embedding of the three pipeline functions and of
`main_registration_pipeline`, the sampling-seed configuration, concrete
test fixtures, then one theorem (plus witness/counterexample) per claim.
-/

namespace QsmReg

/-! ### `os.path.splitext`

`register_t1_to_magnitude` and `apply_transform_to_mask` derive default
output paths with `os.path.splitext(path)[0]` (coreg_pipeline.py lines
29-34, 121-123).  Python's `splitext` splits off the extension at the last
dot of the path, provided that dot lies after the last `/` and that some
non-dot character of the final path component precedes it (so `.bashrc`
has no extension).  We embed it on the reversed character list. -/

/-- Scanning the reversed path: length of the extension (dot included),
or `none` when there is no extension.  The first `.` seen from the right
is the split point, unless a `/` comes first or only dots precede it
within the final path component. -/
def extLenAux : List Char → Nat → Option Nat
  | [], _ => none
  | c :: cs, k =>
    if c = '/' then none
    else if c = '.' then
      if (cs.takeWhile (fun x => x ≠ '/')).any (fun x => x ≠ '.') then
        some (k + 1)
      else none
    else extLenAux cs (k + 1)

/-- `os.path.splitext(p)[0]` on character lists. -/
def splitextBaseL (p : List Char) : List Char :=
  match extLenAux p.reverse 0 with
  | none => p
  | some n => (p.reverse.drop n).reverse

/-- `os.path.splitext(p)[0]` on strings. -/
def splitextBase (p : String) : String :=
  ⟨splitextBaseL p.data⟩

/-- Default registered-image path of `register_t1_to_magnitude`
(coreg_pipeline.py lines 29-31). -/
def defaultOutRegistered (t1Path : String) : String :=
  splitextBase t1Path ++ "_toMag.nii.gz"

/-- Default transform path of `register_t1_to_magnitude`
(coreg_pipeline.py lines 32-34). -/
def defaultOutMatrix (t1Path : String) : String :=
  splitextBase t1Path ++ "_toMag_transform.tfm"

/-- Default output path of `apply_transform_to_mask` /
`apply_transform_to_flair` (coreg_pipeline.py lines 121-123, 170-172). -/
def defaultOutResampled (srcPath : String) : String :=
  splitextBase srcPath ++ "_toMag.nii.gz"

/-- The transform filename the longitudinal lesion-label script looks up
in each `registered/` folder (reg_mspace_masks.py line 129). -/
def lesionScriptTransformName : String :=
  "T1_corrected_canonical.nii_toMag_transform.tfm"

/-! ### Data model

Volumes after the repository's canonical reorientation step have an
axis-aligned direction matrix, so the index→physical map of an image is
`origin + index * spacing` per axis; the grid (size, spacing, origin)
therefore determines the physical affine. -/

/-- A 3-vector of rational coordinates. -/
structure Vec3 where
  x : ℚ
  y : ℚ
  z : ℚ
deriving DecidableEq, Repr

instance : Add Vec3 := ⟨fun a b => ⟨a.x + b.x, a.y + b.y, a.z + b.z⟩⟩
instance : Sub Vec3 := ⟨fun a b => ⟨a.x - b.x, a.y - b.y, a.z - b.z⟩⟩

/-- The voxel grid of an image: size, spacing and physical origin.
Together with the identity direction matrix this is the image's physical
affine. -/
structure Grid where
  size : Nat × Nat × Nat
  spacing : Vec3
  origin : Vec3
deriving DecidableEq, Repr

/-- Physical coordinates of an (integer) voxel index of a grid. -/
def Grid.phys (g : Grid) (i j k : ℤ) : Vec3 :=
  ⟨g.origin.x + i * g.spacing.x,
   g.origin.y + j * g.spacing.y,
   g.origin.z + k * g.spacing.z⟩

/-- Continuous voxel index of a physical point in a grid (the inverse of
the grid's index→physical map), assuming positive spacing. -/
def Grid.contIndex (g : Grid) (p : Vec3) : Vec3 :=
  ⟨(p.x - g.origin.x) / g.spacing.x,
   (p.y - g.origin.y) / g.spacing.y,
   (p.z - g.origin.z) / g.spacing.z⟩

/-- An integer index lies inside the grid's extent. -/
def Grid.inBounds (g : Grid) (i j k : ℤ) : Prop :=
  0 ≤ i ∧ i < g.size.1 ∧ 0 ≤ j ∧ j < g.size.2.1 ∧ 0 ≤ k ∧ k < g.size.2.2

instance (g : Grid) (i j k : ℤ) : Decidable (g.inBounds i j k) := by
  unfold Grid.inBounds; infer_instance

/-- Pixel type tag: the code reads masks and label maps as `sitkUInt8`
(categorical) and T1/FLAIR/magnitude as `sitkFloat32` (continuous). -/
inductive PixelType where
  | uint8
  | float32
deriving DecidableEq, Repr

/-- Interpolators used by the code: `sitkNearestNeighbor` and
`sitkLinear`. -/
inductive Interp where
  | nearest
  | linear
deriving DecidableEq, Repr

/-- An affine transform of physical space: linear part (row-major 3×3)
plus translation.  SimpleITK's resampling transform maps fixed-space
(output) physical points to moving-space (input) physical points. -/
structure AffineT where
  a00 : ℚ
  a01 : ℚ
  a02 : ℚ
  a10 : ℚ
  a11 : ℚ
  a12 : ℚ
  a20 : ℚ
  a21 : ℚ
  a22 : ℚ
  t : Vec3
deriving DecidableEq, Repr

/-- Apply an affine transform to a physical point. -/
def AffineT.apply (T : AffineT) (p : Vec3) : Vec3 :=
  ⟨T.a00 * p.x + T.a01 * p.y + T.a02 * p.z + T.t.x,
   T.a10 * p.x + T.a11 * p.y + T.a12 * p.z + T.t.y,
   T.a20 * p.x + T.a21 * p.y + T.a22 * p.z + T.t.z⟩

/-- The identity transform. -/
def AffineT.id : AffineT :=
  ⟨1, 0, 0, 0, 1, 0, 0, 0, 1, ⟨0, 0, 0⟩⟩

/-- A transform with identity linear part and the given translation. -/
def AffineT.translation (d : Vec3) : AffineT :=
  ⟨1, 0, 0, 0, 1, 0, 0, 0, 1, d⟩

/-- Determinant of the linear part. -/
def AffineT.det (T : AffineT) : ℚ :=
  T.a00 * (T.a11 * T.a22 - T.a12 * T.a21)
    - T.a01 * (T.a10 * T.a22 - T.a12 * T.a20)
    + T.a02 * (T.a10 * T.a21 - T.a11 * T.a20)

/-- An in-memory image: grid plus voxel data (a total function; only
indices inside the grid are meaningful) and a pixel-type tag. -/
structure Volume where
  grid : Grid
  data : ℤ → ℤ → ℤ → ℚ
  pixelType : PixelType

/-! ### Resampler

Embedding of `sitk.ResampleImageFilter` at the configuration the code
uses (coreg_pipeline.py lines 82-87, 132-138, 182-187;
reg_mspace_masks.py lines 61-66): reference image fixes the output grid,
an interpolator, a default pixel value for out-of-bounds samples, and the
transform mapping output physical points to input physical points. -/

/-- Round half up, as ITK's nearest-neighbour index rounding. -/
def roundHalfUp (q : ℚ) : ℤ :=
  ⌊q + 1 / 2⌋

/-- Whether a continuous source index can be sampled by the given
interpolator; outside it the resampler writes the default pixel value. -/
def sampleInside (g : Grid) : Interp → Vec3 → Prop
  | .nearest, c =>
      g.inBounds (roundHalfUp c.x) (roundHalfUp c.y) (roundHalfUp c.z)
  | .linear, c =>
      0 ≤ c.x ∧ c.x ≤ (g.size.1 : ℚ) - 1 ∧
      0 ≤ c.y ∧ c.y ≤ (g.size.2.1 : ℚ) - 1 ∧
      0 ≤ c.z ∧ c.z ≤ (g.size.2.2 : ℚ) - 1

instance (g : Grid) (interp : Interp) (c : Vec3) :
    Decidable (sampleInside g interp c) := by
  cases interp <;> (unfold sampleInside; infer_instance)

/-- Trilinear interpolation of the eight voxels surrounding a continuous
index. -/
def trilinear (src : Volume) (c : Vec3) : ℚ :=
  let i0 := ⌊c.x⌋
  let j0 := ⌊c.y⌋
  let k0 := ⌊c.z⌋
  let fx := c.x - i0
  let fy := c.y - j0
  let fz := c.z - k0
  (1 - fx) * (1 - fy) * (1 - fz) * src.data i0 j0 k0 +
    fx * (1 - fy) * (1 - fz) * src.data (i0 + 1) j0 k0 +
    (1 - fx) * fy * (1 - fz) * src.data i0 (j0 + 1) k0 +
    fx * fy * (1 - fz) * src.data (i0 + 1) (j0 + 1) k0 +
    (1 - fx) * (1 - fy) * fz * src.data i0 j0 (k0 + 1) +
    fx * (1 - fy) * fz * src.data (i0 + 1) j0 (k0 + 1) +
    (1 - fx) * fy * fz * src.data i0 (j0 + 1) (k0 + 1) +
    fx * fy * fz * src.data (i0 + 1) (j0 + 1) (k0 + 1)

/-- Interpolated value at a continuous source index (only consulted
inside the sampling region). -/
def interpValue (src : Volume) : Interp → Vec3 → ℚ
  | .nearest, c => src.data (roundHalfUp c.x) (roundHalfUp c.y) (roundHalfUp c.z)
  | .linear, c => trilinear src c

/-- One interpolated sample: the interpolated value inside the source,
the fill value outside. -/
def sampleAt (src : Volume) (interp : Interp) (c : Vec3) (fill : ℚ) : ℚ :=
  if sampleInside src.grid interp c then interpValue src interp c else fill

/-- `sitk.ResampleImageFilter` with `SetReferenceImage ref`,
`SetInterpolator interp`, `SetDefaultPixelValue fill`,
`SetTransform T`: every reference-grid voxel is pushed to physical space
through the reference affine, through the transform into source physical
space, and pulled back to a continuous source index that is sampled. -/
def resample (src : Volume) (ref : Grid) (T : AffineT) (interp : Interp)
    (fill : ℚ) : Volume :=
  { grid := ref
    pixelType := src.pixelType
    data := fun i j k =>
      sampleAt src interp (src.grid.contIndex (T.apply (ref.phys i j k))) fill }

/-! ### Centred transform initializer (GEOMETRY mode)

`sitk.CenteredTransformInitializer(fixed, moving, _,
CenteredTransformInitializerFilter.GEOMETRY)` (coreg_pipeline.py lines
41-52) aligns the geometric centres of the two images' physical extents:
the initial transform has identity linear part and maps the fixed
centre to the moving centre. -/

/-- Geometric centre of a grid's physical bounding box. -/
def Grid.geomCenter (g : Grid) : Vec3 :=
  ⟨g.origin.x + ((g.size.1 : ℚ) - 1) / 2 * g.spacing.x,
   g.origin.y + ((g.size.2.1 : ℚ) - 1) / 2 * g.spacing.y,
   g.origin.z + ((g.size.2.2 : ℚ) - 1) / 2 * g.spacing.z⟩

/-- The GEOMETRY-mode centred initial transform: identity linear part,
translation taking the fixed geometric centre to the moving one. -/
def centeredGeometryInit (fixed moving : Grid) : AffineT :=
  AffineT.translation (moving.geomCenter - fixed.geomCenter)

/-! ### Registration settings

The fixed configuration `register_t1_to_magnitude` installs on
`sitk.ImageRegistrationMethod` (coreg_pipeline.py lines 55-76). -/

/-- `ImageRegistrationMethod` metric sampling strategies. -/
inductive SamplingStrategy where
  | full
  | regular
  | random
deriving DecidableEq, Repr

/-- Metric configuration.  `samplingSeed = none` records that
`SetMetricSamplingPercentage` was called without a seed argument, leaving
the library default (`sitkWallClock`: reseed from the wall clock on every
run). -/
structure MetricSettings where
  histogramBins : Nat
  samplingStrategy : SamplingStrategy
  samplingPercentage : ℚ
  samplingSeed : Option Nat
deriving DecidableEq, Repr

/-- Optimizer configuration
(`SetOptimizerAsRegularStepGradientDescent`). -/
structure OptimizerSettings where
  learningRate : ℚ
  minStep : ℚ
  numberOfIterations : Nat
  gradientMagnitudeTolerance : ℚ
deriving DecidableEq, Repr

/-- Multi-resolution schedule configuration. -/
structure MultiResSettings where
  shrinkFactors : List Nat
  smoothingSigmas : List ℚ
  sigmasInPhysicalUnits : Bool
deriving DecidableEq, Repr

/-- Metric settings from coreg_pipeline.py lines 56-58:
`SetMetricAsMattesMutualInformation(numberOfHistogramBins=50)`,
`SetMetricSamplingStrategy(RANDOM)`,
`SetMetricSamplingPercentage(0.01)` — no seed argument. -/
def coregMetricSettings : MetricSettings :=
  { histogramBins := 50
    samplingStrategy := .random
    samplingPercentage := 1 / 100
    samplingSeed := none }

/-- Optimizer settings from coreg_pipeline.py lines 62-67. -/
def coregOptimizerSettings : OptimizerSettings :=
  { learningRate := 2
    minStep := 1 / 10000
    numberOfIterations := 200
    gradientMagnitudeTolerance := 1 / 100000000 }

/-- Multi-resolution settings from coreg_pipeline.py lines 71-73. -/
def coregMultiResSettings : MultiResSettings :=
  { shrinkFactors := [4, 2, 1]
    smoothingSigmas := [2, 1, 0]
    sigmasInPhysicalUnits := true }

/-- The seed the metric's random subsample is actually drawn with on a
given run: the explicit seed when one was configured, otherwise the
wall-clock value of that run. -/
def effectiveSamplingSeed (m : MetricSettings) (wallClock : Nat) : Nat :=
  m.samplingSeed.getD wallClock

/-! ### Pipeline embedding

File I/O becomes an explicit store from paths to volumes and transforms;
a missing path fails the read, as the Python call would raise.  Each
pipeline function returns its result together with the list of resampling
operations it performed and the lines it printed, so that interpolation
policy, transform use, boundary policy and reporting are all observable
in the embedding. -/

/-- Failures of the embedded pipeline.  The spec's taxonomy also names
`DegenerateInputError` and `NonInvertibleTransformError`; they are
constructors here so that theorems can state whether the code ever
produces them. -/
inductive PErr where
  | missingResource (path : String)
  | degenerateInput
  | nonInvertibleTransform
deriving DecidableEq, Repr

/-- The file store: images and transforms by path. -/
structure Store where
  images : String → Option Volume
  transforms : String → Option AffineT

/-- `sitk.WriteImage`. -/
def Store.writeImage (s : Store) (path : String) (v : Volume) : Store :=
  { s with images := fun p => if p = path then some v else s.images p }

/-- `sitk.WriteTransform`. -/
def Store.writeTransform (s : Store) (path : String) (T : AffineT) : Store :=
  { s with transforms := fun p => if p = path then some T else s.transforms p }

/-- Casting a voxel to `sitkUInt8` on read: clamp to [0,255] and take the
integer part. -/
def castUInt8 (q : ℚ) : ℚ :=
  ((max 0 (min 255 ⌊q⌋) : ℤ) : ℚ)

/-- `sitk.ReadImage(path, pixelType)`: fetch the volume and cast it to
the requested pixel type. -/
def readImage (s : Store) (path : String) (pt : PixelType) :
    Except PErr Volume :=
  match s.images path with
  | none => .error (.missingResource path)
  | some v =>
      .ok { grid := v.grid
            pixelType := pt
            data :=
              match pt with
              | .float32 => v.data
              | .uint8 => fun i j k => castUInt8 (v.data i j k) }

/-- `sitk.ReadTransform(path)`. -/
def readTransform (s : Store) (path : String) : Except PErr AffineT :=
  match s.transforms path with
  | none => .error (.missingResource path)
  | some T => .ok T

/-- What `ImageRegistrationMethod.Execute` produces: the final transform,
and the convergence state the method holds internally (the code never
queries it). -/
structure RegOutcome where
  transform : AffineT
  converged : Bool

/-- The iterative optimizer, abstracted: given the `rigid` flag, the
fixed and moving volumes and the initial transform, produce the final
transform and convergence state. -/
def Optimizer : Type :=
  Bool → Volume → Volume → AffineT → RegOutcome

/-- One resampling operation as performed by a pipeline run. -/
structure ResampleOp where
  srcPixelType : PixelType
  interp : Interp
  transform : AffineT
  reference : Grid
  fill : ℚ
deriving DecidableEq, Repr

/-- Outcome of a pipeline function: the returned value or the propagated
error, the resampling operations performed, and the printed lines. -/
structure RunResult (α : Type) where
  result : Except PErr α
  ops : List ResampleOp
  prints : List String

/-- `register_t1_to_magnitude` (coreg_pipeline.py lines 6-99): derive
default output paths, read fixed and moving as float32, build the
GEOMETRY-centred initial transform, run the optimizer, resample the
moving image into the fixed grid with linear interpolation and fill 0,
persist the registered image and the transform, and print completion. -/
def registerT1ToMagnitude (opt : Optimizer) (store : Store)
    (t1Path magnitudePath : String)
    (outMatrix outRegistered : Option String) (rigid : Bool) :
    RunResult (Store × String × String) :=
  let outReg := outRegistered.getD (defaultOutRegistered t1Path)
  let outMat := outMatrix.getD (defaultOutMatrix t1Path)
  match readImage store magnitudePath .float32 with
  | .error e => ⟨.error e, [], []⟩
  | .ok fixedImage =>
    match readImage store t1Path .float32 with
    | .error e => ⟨.error e, [], []⟩
    | .ok movingImage =>
      let outcome := opt rigid fixedImage movingImage
        (centeredGeometryInit fixedImage.grid movingImage.grid)
      let finalT := outcome.transform
      let registered := resample movingImage fixedImage.grid finalT .linear 0
      let store' :=
        (store.writeImage outReg registered).writeTransform outMat finalT
      ⟨.ok (store', outReg, outMat),
       [⟨movingImage.pixelType, .linear, finalT, fixedImage.grid, 0⟩],
       ["[Registration Complete]",
        "  => Registered T1:  " ++ outReg,
        "  => Transform:      " ++ outMat]⟩

/-- `apply_transform_to_mask` (coreg_pipeline.py lines 101-148 and,
defined identically, reg_mspace_masks.py lines 29-76): read the fixed
image as float32 and the mask as uint8, load the persisted transform, and
resample the mask into the fixed grid with nearest-neighbour
interpolation and fill 0. -/
def applyTransformToMask (store : Store)
    (maskPath magnitudePath transformMatrix : String)
    (outMask : Option String) : RunResult (Store × String) :=
  let out := outMask.getD (defaultOutResampled maskPath)
  match readImage store magnitudePath .float32 with
  | .error e => ⟨.error e, [], []⟩
  | .ok fixedImage =>
    match readImage store maskPath .uint8 with
    | .error e => ⟨.error e, [], []⟩
    | .ok maskImage =>
      match readTransform store transformMatrix with
      | .error e => ⟨.error e, [], []⟩
      | .ok T =>
        let resampled := resample maskImage fixedImage.grid T .nearest 0
        ⟨.ok (store.writeImage out resampled, out),
         [⟨maskImage.pixelType, .nearest, T, fixedImage.grid, 0⟩],
         ["[Mask Resampling Complete]",
          "  => Resampled Mask: " ++ out]⟩

/-- `apply_transform_to_flair` (coreg_pipeline.py lines 150-197): as the
mask application, but the FLAIR is read as float32 and resampled with
linear interpolation. -/
def applyTransformToFlair (store : Store)
    (flairPath magnitudePath transformMatrix : String)
    (outFlair : Option String) : RunResult (Store × String) :=
  let out := outFlair.getD (defaultOutResampled flairPath)
  match readImage store magnitudePath .float32 with
  | .error e => ⟨.error e, [], []⟩
  | .ok fixedImage =>
    match readImage store flairPath .float32 with
    | .error e => ⟨.error e, [], []⟩
    | .ok flairImage =>
      match readTransform store transformMatrix with
      | .error e => ⟨.error e, [], []⟩
      | .ok T =>
        let resampled := resample flairImage fixedImage.grid T .linear 0
        ⟨.ok (store.writeImage out resampled, out),
         [⟨flairImage.pixelType, .linear, T, fixedImage.grid, 0⟩],
         ["[FLAIR Resampling Complete]",
          "  => Resampled FLAIR:" ++ out]⟩

/-- Sequencing of two pipeline steps under Python exception semantics: if
the first step raised, the second never runs and the error propagates;
otherwise the second step runs on the first step's value, and the traces
accumulate. -/
def seqRun {α β : Type} (r : RunResult α) (f : α → RunResult β) :
    RunResult β :=
  match r.result with
  | .error e => ⟨.error e, r.ops, r.prints⟩
  | .ok a => ⟨(f a).result, r.ops ++ (f a).ops, r.prints ++ (f a).prints⟩

/-- `main_registration_pipeline` (coreg_pipeline.py lines 199-208):
register T1 to magnitude (affine, default output paths), then apply the
persisted transform to the mask, then to the FLAIR.  There is no
exception handling around the steps: an error at any step propagates and
the remaining steps never run. -/
def mainRegistrationPipeline (opt : Optimizer) (store : Store)
    (t1Path flairPath magnitudePath maskPath : String) :
    RunResult (Store × String × String × String) :=
  seqRun (registerT1ToMagnitude opt store t1Path magnitudePath none none false)
    fun x =>
      seqRun (applyTransformToMask x.1 maskPath magnitudePath x.2.2 none)
        fun y =>
          seqRun (applyTransformToFlair y.1 flairPath magnitudePath x.2.2 none)
            fun z => ⟨.ok (z.1, x.2.1, y.2, z.2), [], []⟩

/-- The error of a run, if any (`Store` contains functions, so theorems
observe runs through this projection and the traces). -/
def RunResult.errOf {α : Type} (r : RunResult α) : Option PErr :=
  match r.result with
  | .error e => some e
  | .ok _ => none

/-- Whether a run succeeded. -/
def RunResult.ok {α : Type} (r : RunResult α) : Bool :=
  match r.result with
  | .error _ => false
  | .ok _ => true

/-- The transform persisted at `path` in the store a successful run
returns (`none` on failure or when nothing is stored there). -/
def storedTransform {α : Type} (r : RunResult (Store × α)) (path : String) :
    Option AffineT :=
  match r.result with
  | .error _ => none
  | .ok (s, _) => s.transforms path

/-- Interpolation policy as the spec's invariant states it: categorical
(uint8) data gets nearest-neighbour, continuous (float32) data gets
linear. -/
def interpPolicyOk (op : ResampleOp) : Prop :=
  (op.srcPixelType = .uint8 → op.interp = .nearest) ∧
  (op.srcPixelType = .float32 → op.interp = .linear)

/-- The error of the Apply-Dependents mask step of a pipeline run, when
the Estimate stage succeeded (coreg_pipeline.py line 206). -/
def maskStageErr (opt : Optimizer) (store : Store)
    (t1Path magnitudePath maskPath : String) : Option PErr :=
  match (registerT1ToMagnitude opt store t1Path magnitudePath
      none none false).result with
  | .error _ => none
  | .ok x => (applyTransformToMask x.1 maskPath magnitudePath x.2.2 none).errOf

/-! ### Concrete fixtures

Small volumes and stores on which the pipeline runs are evaluated for
witnesses and counterexamples. -/

/-- A 2×2×2 unit-spacing grid at the origin. -/
def unitGrid : Grid := ⟨(2, 2, 2), ⟨1, 1, 1⟩, ⟨0, 0, 0⟩⟩

/-- A constant float32 test volume on `unitGrid`. -/
def testVol : Volume := ⟨unitGrid, fun _ _ _ => 1, .float32⟩

/-- An optimizer producing a fixed transform and convergence state. -/
def constOpt (T : AffineT) (b : Bool) : Optimizer := fun _ _ _ _ => ⟨T, b⟩

/-- A store holding all four pipeline inputs. -/
def fullStore : Store :=
  ⟨fun p => if p = "t1" ∨ p = "mag" ∨ p = "flair" ∨ p = "mask"
      then some testVol else none,
   fun _ => none⟩

/-- A store holding T1, magnitude and FLAIR but no mask. -/
def storeNoMask : Store :=
  ⟨fun p => if p = "t1" ∨ p = "mag" ∨ p = "flair" then some testVol else none,
   fun _ => none⟩

/-- A store with no files at all. -/
def emptyStore : Store := ⟨fun _ => none, fun _ => none⟩

/-- A degenerate input: a single-voxel volume (below any reasonable
minimum voxel count) of constant intensity (zero variance). -/
def degenerateVol : Volume :=
  ⟨⟨(1, 1, 1), ⟨1, 1, 1⟩, ⟨0, 0, 0⟩⟩, fun _ _ _ => 5, .float32⟩

/-- A store whose T1 and magnitude are both the degenerate volume. -/
def degenerateStore : Store :=
  ⟨fun p => if p = "t1" ∨ p = "mag" then some degenerateVol else none,
   fun _ => none⟩

/-- A transform whose linear part has determinant 0 (maximally
non-invertible). -/
def zeroDetT : AffineT := ⟨0, 0, 0, 0, 0, 0, 0, 0, 0, ⟨0, 0, 0⟩⟩

/-- A store for a standalone dependent application in a later process:
fixed image, mask, and a previously persisted transform. -/
def reuseStore : Store :=
  ⟨fun p => if p = "m" ∨ p = "g" then some testVol else none,
   fun p => if p = "t.tfm" then some AffineT.id else none⟩



/-! ### Helper lemmas -/

/-- On a path ending in `.nii.gz`, Python's `splitext` strips only the
final `.gz`, leaving the `.nii` embedded in the stem. -/
theorem splitextBaseL_niigz (l : List Char) :
    splitextBaseL (l ++ ['.', 'n', 'i', 'i', '.', 'g', 'z'])
      = l ++ ['.', 'n', 'i', 'i'] := by
  simp [splitextBaseL, extLenAux, List.reverse_append]

/-- String-level version of `splitextBaseL_niigz`. -/
theorem splitextBase_niigz (s : String) :
    splitextBase (s ++ ".nii.gz") = s ++ ".nii" := by
  have h1 : (s ++ ".nii.gz").data = s.data ++ ['.', 'n', 'i', 'i', '.', 'g', 'z'] := by
    simp [String.data_append]
  show (⟨splitextBaseL (s ++ ".nii.gz").data⟩ : String) = s ++ ".nii"
  rw [h1, splitextBaseL_niigz]
  apply String.ext
  simp [String.data_append]

/-- A successfully read image carries the requested pixel type. -/
theorem readImage_pixelType {s : Store} {path : String} {pt : PixelType}
    {v : Volume} (h : readImage s path pt = .ok v) : v.pixelType = pt := by
  unfold readImage at h
  cases hv : s.images path with
  | none => rw [hv] at h; exact absurd h (by simp)
  | some w =>
      rw [hv] at h
      cases pt <;> (simp at h; rw [← h])

/-- The only failure `sitk.ReadImage` is modelled to raise is a missing
file. -/
theorem readImage_err {s : Store} {path : String} {pt : PixelType}
    {e : PErr} (h : readImage s path pt = .error e) :
    e = .missingResource path := by
  unfold readImage at h
  cases hv : s.images path with
  | none => rw [hv] at h; simp at h; exact h.symm
  | some w => rw [hv] at h; exact absurd h (by simp)

/-- The only failure `sitk.ReadTransform` is modelled to raise is a
missing file. -/
theorem readTransform_err {s : Store} {path : String} {e : PErr}
    (h : readTransform s path = .error e) : e = .missingResource path := by
  unfold readTransform at h
  cases hv : s.transforms path with
  | none => rw [hv] at h; simp at h; exact h.symm
  | some T => rw [hv] at h; exact absurd h (by simp)

/-- Writing an image never touches the persisted transforms. -/
theorem writeImage_transforms (s : Store) (path : String) (v : Volume) :
    (s.writeImage path v).transforms = s.transforms := rfl

/-- Every resampling `register_t1_to_magnitude` performs is a linear
resampling of a float32 volume with fill value 0, whose transform is the
one the run persists at its transform output path. -/
theorem register_ops_spec (opt : Optimizer) (store : Store)
    (t1Path magnitudePath : String) (outMatrix outRegistered : Option String)
    (rigid : Bool) :
    ∀ op ∈ (registerT1ToMagnitude opt store t1Path magnitudePath
        outMatrix outRegistered rigid).ops,
      op.srcPixelType = .float32 ∧ op.interp = .linear ∧ op.fill = 0 := by
  intro op hop
  unfold registerT1ToMagnitude at hop
  cases h1 : readImage store magnitudePath .float32 with
  | error e => rw [h1] at hop; simp at hop
  | ok fixedImage =>
    rw [h1] at hop
    cases h2 : readImage store t1Path .float32 with
    | error e => rw [h2] at hop; simp at hop
    | ok movingImage =>
      rw [h2] at hop
      simp at hop
      subst hop
      exact ⟨readImage_pixelType h2, rfl, rfl⟩

/-- A failed registration performs no resampling and prints nothing. -/
theorem register_err_spec (opt : Optimizer) (store : Store)
    (t1Path magnitudePath : String) (outMatrix outRegistered : Option String)
    (rigid : Bool) (e : PErr)
    (h : (registerT1ToMagnitude opt store t1Path magnitudePath
        outMatrix outRegistered rigid).errOf = some e) :
    (∃ p, e = .missingResource p) ∧
    (registerT1ToMagnitude opt store t1Path magnitudePath
        outMatrix outRegistered rigid).ops = [] := by
  unfold registerT1ToMagnitude at h ⊢
  cases h1 : readImage store magnitudePath .float32 with
  | error e1 =>
      rw [h1] at h
      simp [RunResult.errOf] at h
      exact ⟨⟨magnitudePath, h ▸ readImage_err h1⟩, by simp⟩
  | ok fixedImage =>
    rw [h1] at h
    cases h2 : readImage store t1Path .float32 with
    | error e2 =>
        rw [h2] at h
        simp [RunResult.errOf] at h
        exact ⟨⟨t1Path, h ▸ readImage_err h2⟩, by simp⟩
    | ok movingImage =>
        rw [h2] at h
        simp [RunResult.errOf] at h

/-- A successful registration run returns the default output paths,
persists the estimated transform at the default transform path (leaving
every other persisted transform untouched), and its one resampling uses
exactly that transform. -/
theorem register_ok_spec (opt : Optimizer) (store : Store)
    (t1Path magnitudePath : String) (rigid : Bool)
    (h : (registerT1ToMagnitude opt store t1Path magnitudePath
        none none rigid).ok = true) :
    ∃ store' finalT,
      (registerT1ToMagnitude opt store t1Path magnitudePath none none rigid).result
        = .ok (store', defaultOutRegistered t1Path, defaultOutMatrix t1Path) ∧
      store'.transforms (defaultOutMatrix t1Path) = some finalT ∧
      (registerT1ToMagnitude opt store t1Path magnitudePath
          none none rigid).ops.map ResampleOp.transform = [finalT] ∧
      (∀ p, p ≠ defaultOutMatrix t1Path →
        store'.transforms p = store.transforms p) := by
  unfold registerT1ToMagnitude at h ⊢
  cases h1 : readImage store magnitudePath .float32 with
  | error e1 => rw [h1] at h; simp [RunResult.ok] at h
  | ok fixedImage =>
    rw [h1] at h
    cases h2 : readImage store t1Path .float32 with
    | error e2 => rw [h2] at h; simp [RunResult.ok] at h
    | ok movingImage =>
      refine ⟨_, _, rfl, ?_, rfl, ?_⟩
      · simp [Store.writeTransform, Store.writeImage]
      · intro p hp
        simp [Store.writeTransform, Store.writeImage, hp]

/-- A successfully loaded transform is the persisted one. -/
theorem readTransform_ok {s : Store} {path : String} {T : AffineT}
    (h : readTransform s path = .ok T) : s.transforms path = some T := by
  unfold readTransform at h
  cases hv : s.transforms path with
  | none => rw [hv] at h; exact absurd h (by simp)
  | some T' => rw [hv] at h; simp at h; rw [h]

/-- Every resampling `apply_transform_to_mask` performs is a
nearest-neighbour resampling of a uint8 volume with fill value 0, using
exactly the transform persisted at the given path. -/
theorem applyMask_ops_spec (store : Store)
    (maskPath magnitudePath tfmPath : String) (outMask : Option String) :
    ∀ op ∈ (applyTransformToMask store maskPath magnitudePath tfmPath
        outMask).ops,
      op.srcPixelType = .uint8 ∧ op.interp = .nearest ∧ op.fill = 0 ∧
      store.transforms tfmPath = some op.transform := by
  intro op hop
  unfold applyTransformToMask at hop
  cases h1 : readImage store magnitudePath .float32 with
  | error e => rw [h1] at hop; simp at hop
  | ok fixedImage =>
    rw [h1] at hop
    cases h2 : readImage store maskPath .uint8 with
    | error e => rw [h2] at hop; simp at hop
    | ok maskImage =>
      rw [h2] at hop
      cases h3 : readTransform store tfmPath with
      | error e => rw [h3] at hop; simp at hop
      | ok T =>
        rw [h3] at hop
        simp at hop
        subst hop
        exact ⟨readImage_pixelType h2, rfl, rfl, readTransform_ok h3⟩

/-- Every resampling `apply_transform_to_flair` performs is a linear
resampling of a float32 volume with fill value 0, using exactly the
transform persisted at the given path. -/
theorem applyFlair_ops_spec (store : Store)
    (flairPath magnitudePath tfmPath : String) (outFlair : Option String) :
    ∀ op ∈ (applyTransformToFlair store flairPath magnitudePath tfmPath
        outFlair).ops,
      op.srcPixelType = .float32 ∧ op.interp = .linear ∧ op.fill = 0 ∧
      store.transforms tfmPath = some op.transform := by
  intro op hop
  unfold applyTransformToFlair at hop
  cases h1 : readImage store magnitudePath .float32 with
  | error e => rw [h1] at hop; simp at hop
  | ok fixedImage =>
    rw [h1] at hop
    cases h2 : readImage store flairPath .float32 with
    | error e => rw [h2] at hop; simp at hop
    | ok flairImage =>
      rw [h2] at hop
      cases h3 : readTransform store tfmPath with
      | error e => rw [h3] at hop; simp at hop
      | ok T =>
        rw [h3] at hop
        simp at hop
        subst hop
        exact ⟨readImage_pixelType h2, rfl, rfl, readTransform_ok h3⟩

/-- A successful mask application leaves the persisted transforms
untouched, and its one resampling uses the transform persisted at the
given path. -/
theorem applyMask_ok_spec (store : Store)
    (maskPath magnitudePath tfmPath : String) (outMask : Option String)
    (s' : Store) (out : String)
    (h : (applyTransformToMask store maskPath magnitudePath tfmPath
        outMask).result = .ok (s', out)) :
    s'.transforms = store.transforms ∧
    ∀ T, store.transforms tfmPath = some T →
      (applyTransformToMask store maskPath magnitudePath tfmPath
          outMask).ops.map ResampleOp.transform = [T] := by
  unfold applyTransformToMask at h ⊢
  cases h1 : readImage store magnitudePath .float32 with
  | error e => rw [h1] at h; exact absurd h (by simp)
  | ok fixedImage =>
    rw [h1] at h
    cases h2 : readImage store maskPath .uint8 with
    | error e => rw [h2] at h; exact absurd h (by simp)
    | ok maskImage =>
      rw [h2] at h
      cases h3 : readTransform store tfmPath with
      | error e => rw [h3] at h; exact absurd h (by simp)
      | ok T =>
        rw [h3] at h
        simp at h
        constructor
        · rw [← h.1]; rfl
        · intro T' hT'
          have : T = T' := by
            have := readTransform_ok h3
            rw [this] at hT'
            exact Option.some.inj hT'
          simp [this]

/-- A successful FLAIR application leaves the persisted transforms
untouched, and its one resampling uses the transform persisted at the
given path. -/
theorem applyFlair_ok_spec (store : Store)
    (flairPath magnitudePath tfmPath : String) (outFlair : Option String)
    (s' : Store) (out : String)
    (h : (applyTransformToFlair store flairPath magnitudePath tfmPath
        outFlair).result = .ok (s', out)) :
    s'.transforms = store.transforms ∧
    ∀ T, store.transforms tfmPath = some T →
      (applyTransformToFlair store flairPath magnitudePath tfmPath
          outFlair).ops.map ResampleOp.transform = [T] := by
  unfold applyTransformToFlair at h ⊢
  cases h1 : readImage store magnitudePath .float32 with
  | error e => rw [h1] at h; exact absurd h (by simp)
  | ok fixedImage =>
    rw [h1] at h
    cases h2 : readImage store flairPath .float32 with
    | error e => rw [h2] at h; exact absurd h (by simp)
    | ok flairImage =>
      rw [h2] at h
      cases h3 : readTransform store tfmPath with
      | error e => rw [h3] at h; exact absurd h (by simp)
      | ok T =>
        rw [h3] at h
        simp at h
        constructor
        · rw [← h.1]; rfl
        · intro T' hT'
          have : T = T' := by
            have := readTransform_ok h3
            rw [this] at hT'
            exact Option.some.inj hT'
          simp [this]

/-- A failed mask application performs no resampling. -/
theorem applyMask_err_spec (store : Store)
    (maskPath magnitudePath tfmPath : String) (outMask : Option String)
    (e : PErr)
    (h : (applyTransformToMask store maskPath magnitudePath tfmPath
        outMask).errOf = some e) :
    (∃ p, e = .missingResource p) ∧
    (applyTransformToMask store maskPath magnitudePath tfmPath
        outMask).ops = [] := by
  unfold applyTransformToMask at h ⊢
  cases h1 : readImage store magnitudePath .float32 with
  | error e1 =>
      rw [h1] at h
      simp [RunResult.errOf] at h
      exact ⟨⟨magnitudePath, h ▸ readImage_err h1⟩, by simp⟩
  | ok fixedImage =>
    rw [h1] at h
    cases h2 : readImage store maskPath .uint8 with
    | error e2 =>
        rw [h2] at h
        simp [RunResult.errOf] at h
        exact ⟨⟨maskPath, h ▸ readImage_err h2⟩, by simp⟩
    | ok maskImage =>
      rw [h2] at h
      cases h3 : readTransform store tfmPath with
      | error e3 =>
          rw [h3] at h
          simp [RunResult.errOf] at h
          exact ⟨⟨tfmPath, h ▸ readTransform_err h3⟩, by simp⟩
      | ok T =>
          rw [h3] at h
          simp [RunResult.errOf] at h

/-- Membership in a sequenced run's operation trace: the operation came
from the first step, or the first step succeeded and it came from the
second. -/
theorem seqRun_ops_mem {α β : Type} (r : RunResult α) (f : α → RunResult β)
    (op : ResampleOp) :
    op ∈ (seqRun r f).ops ↔
      op ∈ r.ops ∨ ∃ a, r.result = .ok a ∧ op ∈ (f a).ops := by
  cases hr : r.result with
  | error e => simp [seqRun, hr]
  | ok a => simp [seqRun, hr]

/-- A sequenced run fails with `e` iff the first step does, or the first
step succeeds and the second fails with `e`. -/
theorem seqRun_errOf {α β : Type} (r : RunResult α) (f : α → RunResult β)
    (e : PErr) :
    (seqRun r f).errOf = some e ↔
      r.errOf = some e ∨ ∃ a, r.result = .ok a ∧ (f a).errOf = some e := by
  cases hr : r.result with
  | error e1 => simp [seqRun, RunResult.errOf, hr]
  | ok a => simp [seqRun, RunResult.errOf, hr]

/-- A sequenced run succeeds iff both steps do. -/
theorem seqRun_result_ok {α β : Type} (r : RunResult α) (f : α → RunResult β)
    (b : β) :
    (seqRun r f).result = .ok b ↔
      ∃ a, r.result = .ok a ∧ (f a).result = .ok b := by
  cases hr : r.result with
  | error e => simp [seqRun, hr]
  | ok a => simp [seqRun, hr]

/-- Trace and result of a sequenced run whose first step succeeded. -/
theorem seqRun_of_ok {α β : Type} {r : RunResult α} {f : α → RunResult β}
    {a : α} (h : r.result = .ok a) :
    (seqRun r f).ops = r.ops ++ (f a).ops ∧
    (seqRun r f).prints = r.prints ++ (f a).prints ∧
    (seqRun r f).result = (f a).result := by
  simp [seqRun, h]

/-- Trace and result of a sequenced run whose first step failed. -/
theorem seqRun_of_err {α β : Type} {r : RunResult α} {f : α → RunResult β}
    {e : PErr} (h : r.result = .error e) :
    (seqRun r f).ops = r.ops ∧
    (seqRun r f).prints = r.prints ∧
    (seqRun r f).result = .error e := by
  simp [seqRun, h]

/-- A run is `ok` iff its result is a success value. -/
theorem runOk_iff {α : Type} (r : RunResult α) :
    r.ok = true ↔ ∃ a, r.result = .ok a := by
  cases hr : r.result with
  | error e => simp [RunResult.ok, hr]
  | ok a => simp [RunResult.ok, hr]

/-- Every resampling of a full pipeline run is either a linear resampling
of a float32 volume or a nearest-neighbour resampling of a uint8 volume,
always with fill value 0. -/
theorem main_ops_spec (opt : Optimizer) (store : Store)
    (t1Path flairPath magnitudePath maskPath : String) :
    ∀ op ∈ (mainRegistrationPipeline opt store t1Path flairPath
        magnitudePath maskPath).ops,
      (op.srcPixelType = .float32 ∧ op.interp = .linear ∧ op.fill = 0) ∨
      (op.srcPixelType = .uint8 ∧ op.interp = .nearest ∧ op.fill = 0) := by
  intro op hop
  unfold mainRegistrationPipeline at hop
  rw [seqRun_ops_mem] at hop
  rcases hop with hmem | ⟨x, hx, hop⟩
  · exact .inl (register_ops_spec _ _ _ _ _ _ _ op hmem)
  · rw [seqRun_ops_mem] at hop
    rcases hop with hmem | ⟨y, hy, hop⟩
    · have := applyMask_ops_spec _ _ _ _ _ op hmem
      exact .inr ⟨this.1, this.2.1, this.2.2.1⟩
    · rw [seqRun_ops_mem] at hop
      rcases hop with hmem | ⟨z, hz, hop⟩
      · have := applyFlair_ops_spec _ _ _ _ _ op hmem
        exact .inl ⟨this.1, this.2.1, this.2.2.1⟩
      · simp at hop

/-- A successful full pipeline run persists one estimated transform at
the default transform path derived from the T1 path, and all three
resamplings (primary T1, dependent mask, dependent FLAIR) use exactly
that persisted transform. -/
theorem main_ok_spec (opt : Optimizer) (store : Store)
    (t1Path flairPath magnitudePath maskPath : String)
    (h : (mainRegistrationPipeline opt store t1Path flairPath
        magnitudePath maskPath).ok = true) :
    ∃ T, storedTransform (mainRegistrationPipeline opt store t1Path
          flairPath magnitudePath maskPath) (defaultOutMatrix t1Path)
        = some T ∧
      (mainRegistrationPipeline opt store t1Path flairPath magnitudePath
          maskPath).ops.map ResampleOp.transform = [T, T, T] := by
  obtain ⟨b, hb⟩ := (runOk_iff _).mp h
  unfold mainRegistrationPipeline at hb ⊢
  rw [seqRun_result_ok] at hb
  obtain ⟨x, hx, hb⟩ := hb
  have hregok : (registerT1ToMagnitude opt store t1Path magnitudePath
      none none false).ok = true := (runOk_iff _).mpr ⟨x, hx⟩
  obtain ⟨store1, T, hres, hstored, hmap1, hpres⟩ :=
    register_ok_spec opt store t1Path magnitudePath false hregok
  rw [hx] at hres
  obtain rfl := (Except.ok.inj hres)
  dsimp only at hb hx
  rw [seqRun_result_ok] at hb
  obtain ⟨y, hy, hb⟩ := hb
  obtain ⟨store2, outm⟩ := y
  rw [seqRun_result_ok] at hb
  obtain ⟨z, hz, hb⟩ := hb
  obtain ⟨store3, outf⟩ := z
  obtain ⟨hm_tr, hm_ops⟩ :=
    applyMask_ok_spec store1 maskPath magnitudePath
      (defaultOutMatrix t1Path) none store2 outm hy
  obtain ⟨hf_tr, hf_ops⟩ :=
    applyFlair_ok_spec store2 flairPath magnitudePath
      (defaultOutMatrix t1Path) none store3 outf hz
  refine ⟨T, ?_, ?_⟩
  · unfold storedTransform
    rw [(seqRun_of_ok hx).2.2]
    dsimp only
    rw [(seqRun_of_ok hy).2.2]
    dsimp only
    rw [(seqRun_of_ok hz).2.2]
    dsimp only
    rw [hf_tr, hm_tr]
    exact hstored
  · rw [(seqRun_of_ok hx).1]
    dsimp only
    rw [(seqRun_of_ok hy).1]
    dsimp only
    rw [(seqRun_of_ok hz).1]
    dsimp only
    rw [List.map_append, List.map_append, List.map_append]
    rw [hmap1, hm_ops T hstored, hf_ops T (by rw [hm_tr]; exact hstored)]
    simp

/-- A run's error projection determines its result. -/
theorem errOf_eq_some {α : Type} (r : RunResult α) (e : PErr) :
    r.errOf = some e ↔ r.result = .error e := by
  cases hr : r.result with
  | error e1 => simp [RunResult.errOf, hr]
  | ok a => simp [RunResult.errOf, hr]

/-- If the Estimate stage fails, the whole pipeline fails with that very
error and performs no resampling at all: no dependent is processed. -/
theorem main_estimate_err (opt : Optimizer) (store : Store)
    (t1Path flairPath magnitudePath maskPath : String) (e : PErr)
    (h : (registerT1ToMagnitude opt store t1Path magnitudePath
        none none false).errOf = some e) :
    (mainRegistrationPipeline opt store t1Path flairPath magnitudePath
        maskPath).errOf = some e ∧
    (mainRegistrationPipeline opt store t1Path flairPath magnitudePath
        maskPath).ops = [] := by
  have hres := (errOf_eq_some _ _).mp h
  constructor
  · unfold mainRegistrationPipeline
    rw [seqRun_errOf]
    exact .inl h
  · unfold mainRegistrationPipeline
    rw [(seqRun_of_err hres).1]
    exact (register_err_spec _ _ _ _ _ _ _ _ h).2

/-- Componentwise form of `Vec3` addition. -/
theorem Vec3.add_def (a b : Vec3) :
    a + b = ⟨a.x + b.x, a.y + b.y, a.z + b.z⟩ := rfl

/-- Componentwise form of `Vec3` subtraction. -/
theorem Vec3.sub_def (a b : Vec3) :
    a - b = ⟨a.x - b.x, a.y - b.y, a.z - b.z⟩ := rfl

/-- The geometric centre of a grid translated by `d` is the original
centre translated by `d`. -/
theorem geomCenter_translate (g : Grid) (d : Vec3) :
    Grid.geomCenter ⟨g.size, g.spacing, g.origin + d⟩ = g.geomCenter + d := by
  obtain ⟨⟨s1, s2, s3⟩, ⟨spx, spy, spz⟩, ⟨ox, oy, oz⟩⟩ := g
  obtain ⟨dx, dy, dz⟩ := d
  simp only [Grid.geomCenter, Vec3.add_def, Vec3.mk.injEq]
  refine ⟨by ring, by ring, by ring⟩

/-- Cancellation for `Vec3`. -/
theorem Vec3.add_sub_cancel_left (a d : Vec3) : (a + d) - a = d := by
  obtain ⟨ax, ay, az⟩ := a
  obtain ⟨dx, dy, dz⟩ := d
  simp only [Vec3.add_def, Vec3.sub_def, Vec3.mk.injEq]
  refine ⟨by ring, by ring, by ring⟩

/-- A pure translation acts on points by vector addition. -/
theorem translation_apply (v p : Vec3) :
    (AffineT.translation v).apply p = p + v := by
  obtain ⟨vx, vy, vz⟩ := v
  obtain ⟨px, py, pz⟩ := p
  simp only [AffineT.translation, AffineT.apply, Vec3.add_def, Vec3.mk.injEq]
  refine ⟨by ring, by ring, by ring⟩

/-! ### Claims -/

/-- **C1.**  For every resampling performed by the pipeline — the primary
T1, the dependent mask and FLAIR applications of
`main_registration_pipeline`, and the standalone mask/lesion-label
application `apply_transform_to_mask` (identically defined in
reg_mspace_masks.py) — a categorical (uint8) source volume is resampled
with nearest-neighbour interpolation and a continuous (float32) source
with linear interpolation.  The property holds for every caller-supplied
store, path and optimizer: the mapping is fixed inside each function by
the pixel type it reads its source with, and no caller-supplied
interpolation policy exists that could override it. -/
theorem claim1_interpolation_policy :
    (∀ (opt : Optimizer) (store : Store)
        (t1Path flairPath magnitudePath maskPath : String),
      ∀ op ∈ (mainRegistrationPipeline opt store t1Path flairPath
          magnitudePath maskPath).ops, interpPolicyOk op) ∧
    (∀ (store : Store) (maskPath magnitudePath tfmPath : String)
        (outMask : Option String),
      ∀ op ∈ (applyTransformToMask store maskPath magnitudePath tfmPath
          outMask).ops, interpPolicyOk op) := by
  constructor
  · intro opt store t1Path flairPath magnitudePath maskPath op hop
    rcases main_ops_spec opt store t1Path flairPath magnitudePath maskPath
        op hop with ⟨h1, h2, _⟩ | ⟨h1, h2, _⟩
    · exact ⟨fun hu => absurd (h1.symm.trans hu) (by decide), fun _ => h2⟩
    · exact ⟨fun _ => h2, fun hf => absurd (h1.symm.trans hf) (by decide)⟩
  · intro store maskPath magnitudePath tfmPath outMask op hop
    have h := applyMask_ops_spec store maskPath magnitudePath tfmPath
      outMask op hop
    exact ⟨fun _ => h.2.1, fun hf => absurd (h.1.symm.trans hf) (by decide)⟩

/-- Witness for C1 at a concrete run: the primary resampling of a full
pipeline run over the test store satisfies the policy. -/
theorem claim1_witness :
    interpPolicyOk ⟨.float32, .linear, AffineT.id, unitGrid, 0⟩ :=
  claim1_interpolation_policy.1 (constOpt AffineT.id true) fullStore
    "t1" "flair" "mag" "mask"
    ⟨.float32, .linear, AffineT.id, unitGrid, 0⟩ (by decide)

/-- **C2.**  A successful pipeline run persists the estimated transform
at the default transform path during the registration (Apply-Primary)
stage, and all three resamplings — primary T1, dependent mask, dependent
FLAIR — use exactly that persisted transform; moreover any standalone
dependent application (as run by the longitudinal lesion-label script in
a separate process) applies precisely the transform persisted at the path
it is given, and never writes or alters any persisted transform. -/
theorem claim2_persisted_transform_reuse :
    (∀ (opt : Optimizer) (store : Store)
        (t1Path flairPath magnitudePath maskPath : String),
      (mainRegistrationPipeline opt store t1Path flairPath magnitudePath
          maskPath).ok = true →
      ∃ T, storedTransform (mainRegistrationPipeline opt store t1Path
            flairPath magnitudePath maskPath) (defaultOutMatrix t1Path)
          = some T ∧
        (mainRegistrationPipeline opt store t1Path flairPath magnitudePath
            maskPath).ops.map ResampleOp.transform = [T, T, T]) ∧
    (∀ (store : Store) (maskPath magnitudePath tfmPath : String)
        (outMask : Option String) (T : AffineT),
      store.transforms tfmPath = some T →
      (∀ op ∈ (applyTransformToMask store maskPath magnitudePath tfmPath
          outMask).ops, op.transform = T) ∧
      (∀ s' out, (applyTransformToMask store maskPath magnitudePath
            tfmPath outMask).result = .ok (s', out) →
        s'.transforms = store.transforms)) := by
  constructor
  · exact main_ok_spec
  · intro store maskPath magnitudePath tfmPath outMask T hT
    constructor
    · intro op hop
      have hprov := (applyMask_ops_spec store maskPath magnitudePath
        tfmPath outMask op hop).2.2.2
      rw [hT] at hprov
      exact (Option.some.inj hprov).symm
    · intro s' out hres
      exact (applyMask_ok_spec store maskPath magnitudePath tfmPath
        outMask s' out hres).1

/-- Witness for C2: a concrete successful run persists one transform and
uses it for all three resamplings, and a standalone mask application in a
fresh store applies the transform persisted there. -/
theorem claim2_witness :
    (∃ T, storedTransform (mainRegistrationPipeline (constOpt AffineT.id
          true) fullStore "t1" "flair" "mag" "mask")
          (defaultOutMatrix "t1") = some T ∧
      (mainRegistrationPipeline (constOpt AffineT.id true) fullStore "t1"
          "flair" "mag" "mask").ops.map ResampleOp.transform = [T, T, T]) ∧
    ResampleOp.transform ⟨.uint8, .nearest, AffineT.id, unitGrid, 0⟩
      = AffineT.id := by
  constructor
  · exact claim2_persisted_transform_reuse.1 (constOpt AffineT.id true)
      fullStore "t1" "flair" "mag" "mask" (by decide)
  · exact (claim2_persisted_transform_reuse.2 reuseStore "m" "g" "t.tfm"
      none AffineT.id (by decide)).1
      ⟨.uint8, .nearest, AffineT.id, unitGrid, 0⟩ (by decide)

/-- **C3, counterexample.**  On a degenerate input — single-voxel
(below any minimum voxel count), constant-intensity (zero variance)
fixed and moving volumes — and with an estimated transform of linear
determinant 0 (below any positive floor), `register_t1_to_magnitude`
raises nothing: it succeeds and persists the singular transform.  No
`DegenerateInputError` or `NonInvertibleTransformError` exists in the
code. -/
theorem claim3_counterexample :
    degenerateVol.grid.size = (1, 1, 1) ∧
    degenerateVol.data 0 0 0 = 5 ∧
    AffineT.det zeroDetT = 0 ∧
    (registerT1ToMagnitude (constOpt zeroDetT true) degenerateStore "t1"
        "mag" none none false).errOf = none ∧
    (registerT1ToMagnitude (constOpt zeroDetT true) degenerateStore "t1"
        "mag" none none false).ok = true ∧
    storedTransform (registerT1ToMagnitude (constOpt zeroDetT true)
        degenerateStore "t1" "mag" none none false)
        (defaultOutMatrix "t1") = some zeroDetT := by
  refine ⟨by decide, by decide, by norm_num [AffineT.det, zeroDetT],
    by decide, by decide, by decide⟩

/-- **C3, amended.**  `register_t1_to_magnitude` performs no degeneracy
or invertibility checks: its only failure mode is a missing input file
(so it never fails with a degenerate-input or non-invertible-transform
error); an Estimate-stage failure does halt the case before any
dependent is processed, the pipeline failing with that very error having
performed no resampling. -/
theorem claim3_no_typed_failure_checks :
    (∀ (opt : Optimizer) (store : Store) (t1Path magnitudePath : String)
        (outMatrix outRegistered : Option String) (rigid : Bool) (e : PErr),
      (registerT1ToMagnitude opt store t1Path magnitudePath outMatrix
          outRegistered rigid).errOf = some e →
      ∃ p, e = .missingResource p) ∧
    (∀ (opt : Optimizer) (store : Store)
        (t1Path flairPath magnitudePath maskPath : String) (e : PErr),
      (registerT1ToMagnitude opt store t1Path magnitudePath
          none none false).errOf = some e →
      (mainRegistrationPipeline opt store t1Path flairPath magnitudePath
          maskPath).errOf = some e ∧
      (mainRegistrationPipeline opt store t1Path flairPath magnitudePath
          maskPath).ops = []) := by
  constructor
  · intro opt store t1Path magnitudePath outMatrix outRegistered rigid e h
    exact (register_err_spec opt store t1Path magnitudePath outMatrix
      outRegistered rigid e h).1
  · intro opt store t1Path flairPath magnitudePath maskPath e h
    exact main_estimate_err opt store t1Path flairPath magnitudePath
      maskPath e h

/-- Witness for C3 (amended): on an empty store the Estimate stage fails
with a missing-resource error, and the pipeline halts with that error
having processed no dependent. -/
theorem claim3_witness :
    (∃ p, PErr.missingResource "mag" = PErr.missingResource p) ∧
    (mainRegistrationPipeline (constOpt AffineT.id true) emptyStore "t1"
        "flair" "mag" "mask").errOf = some (.missingResource "mag") ∧
    (mainRegistrationPipeline (constOpt AffineT.id true) emptyStore "t1"
        "flair" "mag" "mask").ops = [] := by
  refine ⟨claim3_no_typed_failure_checks.1 (constOpt AffineT.id true)
    emptyStore "t1" "mag" none none false (.missingResource "mag")
    (by decide), ?_, ?_⟩
  · exact (claim3_no_typed_failure_checks.2 (constOpt AffineT.id true)
      emptyStore "t1" "flair" "mag" "mask" (.missingResource "mag")
      (by decide)).1
  · exact (claim3_no_typed_failure_checks.2 (constOpt AffineT.id true)
      emptyStore "t1" "flair" "mag" "mask" (.missingResource "mag")
      (by decide)).2

/-- **C4, counterexample.**  With the FLAIR file present but the mask
file missing, the pipeline run fails with the mask's missing-resource
error, performs only the primary resampling (the FLAIR sibling is never
processed), and prints only the registration-stage lines — there is no
partial-success report. -/
theorem claim4_counterexample :
    (storeNoMask.images "flair").isSome = true ∧
    (mainRegistrationPipeline (constOpt AffineT.id true) storeNoMask "t1"
        "flair" "mag" "mask").errOf = some (.missingResource "mask") ∧
    (mainRegistrationPipeline (constOpt AffineT.id true) storeNoMask "t1"
        "flair" "mag" "mask").ops.map ResampleOp.interp = [.linear] ∧
    (mainRegistrationPipeline (constOpt AffineT.id true) storeNoMask "t1"
        "flair" "mag" "mask").prints =
      ["[Registration Complete]",
       "  => Registered T1:  t1_toMag.nii.gz",
       "  => Transform:      t1_toMag_transform.tfm"] := by
  decide

/-- **C4, amended.**  A failure on the mask dependent aborts the
remaining dependent and propagates the raw error past the pipeline
boundary: the run fails with the dependent's error, its operation trace
is exactly the Estimate/Apply-Primary trace (the FLAIR sibling is never
resampled, every performed resampling being the linear float32 primary),
and no per-dependent report or partial-success state is produced. -/
theorem claim4_dependent_failure_aborts :
    ∀ (opt : Optimizer) (store : Store)
      (t1Path flairPath magnitudePath maskPath : String) (e : PErr),
      maskStageErr opt store t1Path magnitudePath maskPath = some e →
      (mainRegistrationPipeline opt store t1Path flairPath magnitudePath
          maskPath).errOf = some e ∧
      (mainRegistrationPipeline opt store t1Path flairPath magnitudePath
          maskPath).ops =
        (registerT1ToMagnitude opt store t1Path magnitudePath
          none none false).ops ∧
      ∀ op ∈ (mainRegistrationPipeline opt store t1Path flairPath
          magnitudePath maskPath).ops,
        op.interp = .linear ∧ op.srcPixelType = .float32 := by
  intro opt store t1Path flairPath magnitudePath maskPath e h
  unfold maskStageErr at h
  cases hr1 : (registerT1ToMagnitude opt store t1Path magnitudePath
      none none false).result with
  | error e1 => rw [hr1] at h; simp at h
  | ok x =>
    rw [hr1] at h
    simp at h
    have hr2 := (errOf_eq_some _ _).mp h
    refine ⟨?_, ?_, ?_⟩
    · unfold mainRegistrationPipeline
      rw [seqRun_errOf]
      exact .inr ⟨x, hr1, by rw [seqRun_errOf]; exact .inl h⟩
    · unfold mainRegistrationPipeline
      rw [(seqRun_of_ok hr1).1, (seqRun_of_err hr2).1,
        (applyMask_err_spec _ _ _ _ _ _ h).2]
      simp
    · intro op hop
      unfold mainRegistrationPipeline at hop
      rw [seqRun_ops_mem] at hop
      rcases hop with hmem | ⟨x', hx', hop⟩
      · have hr := register_ops_spec _ _ _ _ _ _ _ op hmem
        exact ⟨hr.2.1, hr.1⟩
      · rw [hx'] at hr1
        obtain rfl := Except.ok.inj hr1
        rw [seqRun_ops_mem] at hop
        rcases hop with hmem | ⟨y, hy, hop⟩
        · rw [(applyMask_err_spec _ _ _ _ _ _ h).2] at hmem
          simp at hmem
        · rw [hr2] at hy
          simp at hy

/-- Witness for C4 (amended) at the concrete mask-missing store. -/
theorem claim4_witness :
    (mainRegistrationPipeline (constOpt AffineT.id true) storeNoMask "t1"
        "flair" "mag" "mask").errOf = some (.missingResource "mask") ∧
    (mainRegistrationPipeline (constOpt AffineT.id true) storeNoMask "t1"
        "flair" "mag" "mask").ops =
      (registerT1ToMagnitude (constOpt AffineT.id true) storeNoMask "t1"
        "mag" none none false).ops := by
  have h := claim4_dependent_failure_aborts (constOpt AffineT.id true)
    storeNoMask "t1" "flair" "mag" "mask" (.missingResource "mask")
    (by decide)
  exact ⟨h.1, h.2.1⟩

/-- **C5, counterexample.**  The metric sampling configuration installed
by the code uses the RANDOM strategy but sets no explicit seed
(`SetMetricSamplingPercentage(0.01)` leaves the library default, the
wall clock), so the seed the subsample is actually drawn with differs
between two runs at different wall-clock values: the sample-draw seed
policy is not explicit and runs are not reproducible by configuration. -/
theorem claim5_counterexample :
    coregMetricSettings.samplingStrategy = .random ∧
    coregMetricSettings.samplingSeed = none ∧
    effectiveSamplingSeed coregMetricSettings 0 ≠
      effectiveSamplingSeed coregMetricSettings 1 := by
  decide

/-- **C5, amended.**  The code requests RANDOM metric sampling at 1%
with no explicit seed, so the effective sampling seed of every run is
the run's wall-clock value: determinism across repeated runs is not
established by the configuration. -/
theorem claim5_wall_clock_seed :
    coregMetricSettings.samplingStrategy = .random ∧
    coregMetricSettings.samplingPercentage = 1 / 100 ∧
    coregMetricSettings.samplingSeed = none ∧
    ∀ wallClock : Nat,
      effectiveSamplingSeed coregMetricSettings wallClock = wallClock := by
  exact ⟨rfl, rfl, rfl, fun _ => rfl⟩

/-- **C6.**  The GEOMETRY-mode centred initializer used by the code
aligns the geometric centres of the fixed and moving physical bounding
boxes: it is a pure translation taking the fixed centre to the moving
centre, not the identity (whenever the offset is nonzero).  For two
grids that are pure translations of each other by `d`, its translation
component equals `d` exactly — in particular within one voxel spacing. -/
theorem claim6_centroid_alignment :
    ∀ (fixed moving : Grid) (d : Vec3),
      moving.size = fixed.size →
      moving.spacing = fixed.spacing →
      moving.origin = fixed.origin + d →
      (centeredGeometryInit fixed moving).t = d ∧
      centeredGeometryInit fixed moving = AffineT.translation d ∧
      (centeredGeometryInit fixed moving).apply fixed.geomCenter
        = moving.geomCenter ∧
      (d ≠ ⟨0, 0, 0⟩ → centeredGeometryInit fixed moving ≠ AffineT.id) ∧
      (0 ≤ fixed.spacing.x →
        |(centeredGeometryInit fixed moving).t.x - d.x| ≤ fixed.spacing.x) ∧
      (0 ≤ fixed.spacing.y →
        |(centeredGeometryInit fixed moving).t.y - d.y| ≤ fixed.spacing.y) ∧
      (0 ≤ fixed.spacing.z →
        |(centeredGeometryInit fixed moving).t.z - d.z| ≤ fixed.spacing.z) := by
  intro fixed moving d hsize hsp ho
  have hmv : moving = ⟨fixed.size, fixed.spacing, fixed.origin + d⟩ := by
    obtain ⟨msz, msp, mo⟩ := moving
    simp only at hsize hsp ho
    simp [hsize, hsp, ho]
  have ht : (centeredGeometryInit fixed moving).t = d := by
    rw [hmv]
    show Grid.geomCenter ⟨fixed.size, fixed.spacing, fixed.origin + d⟩
        - fixed.geomCenter = d
    rw [geomCenter_translate fixed d]
    exact Vec3.add_sub_cancel_left _ _
  have htr : centeredGeometryInit fixed moving = AffineT.translation d := by
    rw [← ht]
    rfl
  refine ⟨ht, htr, ?_, ?_, ?_, ?_, ?_⟩
  · rw [htr, translation_apply, hmv]
    exact (geomCenter_translate fixed d).symm
  · intro hd hid
    rw [htr] at hid
    exact hd (congrArg AffineT.t hid)
  · intro hx
    rw [ht]
    simpa using hx
  · intro hy
    rw [ht]
    simpa using hy
  · intro hz
    rw [ht]
    simpa using hz

/-- Witness for C6: two 4³ unit-spacing grids offset by (5,0,0). -/
theorem claim6_witness :
    (centeredGeometryInit ⟨(4, 4, 4), ⟨1, 1, 1⟩, ⟨0, 0, 0⟩⟩
        ⟨(4, 4, 4), ⟨1, 1, 1⟩, ⟨5, 0, 0⟩⟩).t = ⟨5, 0, 0⟩ ∧
    centeredGeometryInit ⟨(4, 4, 4), ⟨1, 1, 1⟩, ⟨0, 0, 0⟩⟩
        ⟨(4, 4, 4), ⟨1, 1, 1⟩, ⟨5, 0, 0⟩⟩ ≠ AffineT.id := by
  have h := claim6_centroid_alignment ⟨(4, 4, 4), ⟨1, 1, 1⟩, ⟨0, 0, 0⟩⟩
    ⟨(4, 4, 4), ⟨1, 1, 1⟩, ⟨5, 0, 0⟩⟩ ⟨5, 0, 0⟩ rfl rfl
    (by simp [Vec3.add_def])
  exact ⟨h.1, h.2.2.2.1 (by decide)⟩

/-- **C7.**  The resampler's output inherits the reference grid — hence
its spacing and its affine (origin, with the canonical identity
direction) — exactly, never the source's; every reference voxel whose
mapped continuous source index falls outside the source's sampling
region receives the fill value instead of an extrapolated intensity; and
every resampling the pipeline performs passes fill value 0. -/
theorem claim7_resample_reference_contract :
    (∀ (src : Volume) (ref : Grid) (T : AffineT) (interp : Interp)
        (fill : ℚ),
      (resample src ref T interp fill).grid = ref ∧
      (resample src ref T interp fill).grid.spacing = ref.spacing ∧
      (resample src ref T interp fill).grid.origin = ref.origin) ∧
    (∀ (src : Volume) (ref : Grid) (T : AffineT) (interp : Interp)
        (fill : ℚ) (i j k : ℤ),
      ¬ sampleInside src.grid interp
          (src.grid.contIndex (T.apply (ref.phys i j k))) →
      (resample src ref T interp fill).data i j k = fill) ∧
    (∀ (opt : Optimizer) (store : Store)
        (t1Path flairPath magnitudePath maskPath : String),
      ∀ op ∈ (mainRegistrationPipeline opt store t1Path flairPath
          magnitudePath maskPath).ops, op.fill = 0) := by
  refine ⟨fun _ _ _ _ _ => ⟨rfl, rfl, rfl⟩, ?_, ?_⟩
  · intro src ref T interp fill i j k h
    unfold resample sampleAt
    dsimp only
    rw [if_neg h]
  · intro opt store t1Path flairPath magnitudePath maskPath op hop
    rcases main_ops_spec opt store t1Path flairPath magnitudePath maskPath
        op hop with ⟨_, _, h⟩ | ⟨_, _, h⟩ <;> exact h

/-- Witness for C7: a reference voxel mapping 10 voxels outside the 2³
test volume receives fill value 0, and the output carries the reference
grid. -/
theorem claim7_witness :
    (resample testVol unitGrid (AffineT.translation ⟨10, 10, 10⟩)
        .linear 0).data 0 0 0 = 0 ∧
    (resample testVol unitGrid (AffineT.translation ⟨10, 10, 10⟩)
        .linear 0).grid = unitGrid := by
  constructor
  · exact claim7_resample_reference_contract.2.1 testVol unitGrid
      (AffineT.translation ⟨10, 10, 10⟩) .linear 0 0 0 0
      (by norm_num [sampleInside, Grid.contIndex, Grid.phys,
        AffineT.apply, AffineT.translation, testVol, unitGrid])
  · exact (claim7_resample_reference_contract.1 testVol unitGrid
      (AffineT.translation ⟨10, 10, 10⟩) .linear 0).1

/-- **C8, counterexample.**  With an optimizer whose convergence state is
`false`, `register_t1_to_magnitude` still succeeds, persists the
transform, and prints exactly its completion lines — no warning distinct
from success is reported to the caller. -/
theorem claim8_counterexample :
    (registerT1ToMagnitude (constOpt AffineT.id false) fullStore "t1"
        "mag" none none false).ok = true ∧
    (registerT1ToMagnitude (constOpt AffineT.id false) fullStore "t1"
        "mag" none none false).prints =
      ["[Registration Complete]",
       "  => Registered T1:  t1_toMag.nii.gz",
       "  => Transform:      t1_toMag_transform.tfm"] ∧
    storedTransform (registerT1ToMagnitude (constOpt AffineT.id false)
        fullStore "t1" "mag" none none false) (defaultOutMatrix "t1")
      = some AffineT.id := by
  decide

/-- **C8, amended.**  The code ignores the optimizer's convergence
state entirely: two optimizers that produce the same transform but
opposite convergence states give runs with identical error state,
identical resampling trace, identical printed lines, and identical
persisted transforms — so `converged = false` is not reported as a
state distinct from success. -/
theorem claim8_converged_ignored :
    ∀ (opt1 opt2 : Optimizer),
      (∀ r f m i, (opt1 r f m i).transform = (opt2 r f m i).transform) →
      ∀ (store : Store) (t1Path magnitudePath : String)
        (outMatrix outRegistered : Option String) (rigid : Bool),
        (registerT1ToMagnitude opt1 store t1Path magnitudePath outMatrix
            outRegistered rigid).errOf
          = (registerT1ToMagnitude opt2 store t1Path magnitudePath
            outMatrix outRegistered rigid).errOf ∧
        (registerT1ToMagnitude opt1 store t1Path magnitudePath outMatrix
            outRegistered rigid).ops
          = (registerT1ToMagnitude opt2 store t1Path magnitudePath
            outMatrix outRegistered rigid).ops ∧
        (registerT1ToMagnitude opt1 store t1Path magnitudePath outMatrix
            outRegistered rigid).prints
          = (registerT1ToMagnitude opt2 store t1Path magnitudePath
            outMatrix outRegistered rigid).prints ∧
        ∀ p, storedTransform (registerT1ToMagnitude opt1 store t1Path
              magnitudePath outMatrix outRegistered rigid) p
            = storedTransform (registerT1ToMagnitude opt2 store t1Path
              magnitudePath outMatrix outRegistered rigid) p := by
  intro opt1 opt2 h store t1Path magnitudePath outMatrix outRegistered rigid
  unfold registerT1ToMagnitude
  cases h1 : readImage store magnitudePath .float32 with
  | error e => exact ⟨rfl, rfl, rfl, fun _ => rfl⟩
  | ok fixedImage =>
    cases h2 : readImage store t1Path .float32 with
    | error e => exact ⟨rfl, rfl, rfl, fun _ => rfl⟩
    | ok movingImage =>
      dsimp only
      rw [h rigid fixedImage movingImage
        (centeredGeometryInit fixedImage.grid movingImage.grid)]
      exact ⟨rfl, rfl, rfl, fun _ => rfl⟩

/-- Witness for C8 (amended): converged-false and converged-true runs of
the concrete store coincide in all observables. -/
theorem claim8_witness :
    (registerT1ToMagnitude (constOpt AffineT.id false) fullStore "t1"
        "mag" none none false).prints
      = (registerT1ToMagnitude (constOpt AffineT.id true) fullStore "t1"
        "mag" none none false).prints ∧
    storedTransform (registerT1ToMagnitude (constOpt AffineT.id false)
        fullStore "t1" "mag" none none false) (defaultOutMatrix "t1")
      = storedTransform (registerT1ToMagnitude (constOpt AffineT.id true)
        fullStore "t1" "mag" none none false) (defaultOutMatrix "t1") := by
  have h := claim8_converged_ignored (constOpt AffineT.id false)
    (constOpt AffineT.id true) (fun _ _ _ _ => rfl) fullStore "t1" "mag"
    none none false
  exact ⟨h.2.2.1, h.2.2.2 (defaultOutMatrix "t1")⟩

/-- **C9.**  Nearest-neighbour resampling of a categorical (uint8)
volume never invents a label: every output voxel's value is either the
fill value 0 or the value of some in-bounds source voxel. -/
theorem claim9_label_preservation :
    ∀ (src : Volume) (ref : Grid) (T : AffineT) (i j k : ℤ),
      src.pixelType = .uint8 →
      (resample src ref T .nearest 0).data i j k = 0 ∨
      ∃ a b c, src.grid.inBounds a b c ∧
        (resample src ref T .nearest 0).data i j k = src.data a b c := by
  intro src ref T i j k _
  unfold resample sampleAt
  dsimp only
  by_cases hin : sampleInside src.grid .nearest
      (src.grid.contIndex (T.apply (ref.phys i j k)))
  · right
    refine ⟨_, _, _, hin, ?_⟩
    rw [if_pos hin]
    rfl
  · left
    rw [if_neg hin]

/-- Witness for C9 at a concrete categorical volume and transform. -/
theorem claim9_witness :
    (resample ⟨unitGrid, fun _ _ _ => 3, .uint8⟩ unitGrid AffineT.id
        .nearest 0).data 0 0 0 = 0 ∨
    ∃ a b c, Grid.inBounds unitGrid a b c ∧
      (resample ⟨unitGrid, fun _ _ _ => 3, .uint8⟩ unitGrid AffineT.id
        .nearest 0).data 0 0 0
        = (fun (_ _ _ : ℤ) => (3 : ℚ)) a b c :=
  claim9_label_preservation ⟨unitGrid, fun _ _ _ => 3, .uint8⟩ unitGrid
    AffineT.id 0 0 0 rfl

/-- **C10.**  On a T1 path ending in `.nii.gz` with outputs omitted,
`register_t1_to_magnitude`'s defaults strip only the final `.gz`:
the registered image goes to `<stem>.nii_toMag.nii.gz` and the transform
to `<stem>.nii_toMag_transform.tfm`, the `.nii` staying embedded; the
longitudinal lesion-label script's hard-coded transform filename matches
exactly the default derived from `T1_corrected_canonical.nii.gz`. -/
theorem claim10_default_output_paths :
    (∀ s : String,
      defaultOutRegistered (s ++ ".nii.gz") = s ++ ".nii_toMag.nii.gz" ∧
      defaultOutMatrix (s ++ ".nii.gz") = s ++ ".nii_toMag_transform.tfm") ∧
    defaultOutMatrix "T1_corrected_canonical.nii.gz"
      = lesionScriptTransformName := by
  constructor
  · intro s
    constructor
    · unfold defaultOutRegistered
      rw [splitextBase_niigz]
      apply String.ext
      simp [String.data_append]
    · unfold defaultOutMatrix
      rw [splitextBase_niigz]
      apply String.ext
      simp [String.data_append]
  · decide

end QsmReg
